import Mathlib

/-!
Verification of the Quran-Talk RAG backend (aiquran repository).

The development shallowly embeds the Python source files `backend.py`,
`backend_cloud.py` and `database.py` into Lean:

* pure string helpers (`str.strip`, title generation, `<think>` parsing,
  small-talk regex classification) become computable Lean functions on
  `String` / `List Char`;
* the external collaborators (cloud/local LLM, DuckDuckGo web search,
  hnswlib ANN index) are passed in as explicit oracle values so the
  surrounding repository logic stays exactly as written;
* the SQLAlchemy session store becomes explicit state passing over a
  `DB` value holding chat and message rows.
-/

namespace QuranTalk

/-! ### Python string primitives -/

/-- Characters removed by Python `str.strip()` (the ASCII whitespace set). -/
def isPyWhitespace (c : Char) : Bool :=
  c = ' ' || c = '\t' || c = '\n' || c = '\r' || c = Char.ofNat 11 || c = Char.ofNat 12

/-- Python `str.strip()` on a character list: drop leading and trailing
whitespace. -/
def pyStripL (l : List Char) : List Char :=
  ((l.dropWhile isPyWhitespace).reverse.dropWhile isPyWhitespace).reverse

/-- Python `str.strip()`. -/
def pyStrip (s : String) : String :=
  String.mk (pyStripL s.data)

/-! ### `database.auto_title_from_message`

```python
def auto_title_from_message(content: str) -> str:
    clean = content.strip()
    if len(clean) <= 60:
        return clean
    return clean[:57] + "..."
```
-/

/-- List-level body of `auto_title_from_message`. -/
def autoTitleL (l : List Char) : List Char :=
  let clean := pyStripL l
  if clean.length ≤ 60 then clean else clean.take 57 ++ ('.' :: '.' :: '.' :: [])

/-- `database.auto_title_from_message`. -/
def auto_title_from_message (content : String) : String :=
  String.mk (autoTitleL content.data)

/-! ### Claim C6 -/

/-- C6 counterexample: the claim says the title equals the message text
*verbatim* whenever the message is at most 60 characters long, but the code
strips surrounding whitespace first: `auto_title_from_message " hi "`
returns `"hi"`, not `" hi "`, although `" hi "` has length 4 ≤ 60. -/
theorem C6_title_counterexample :
    (" hi " : String).length ≤ 60 ∧ auto_title_from_message " hi " ≠ " hi " := by
  constructor
  · decide
  · decide

/-- C6 (amended): the auto-generated title equals the whitespace-stripped
message text when that stripped text is at most 60 characters long, and
otherwise equals the first 57 characters of the stripped text followed by the
ellipsis marker `"..."`, giving a title of length exactly 60. -/
theorem C6_title_truncation (content : String) :
    (( pyStripL content.data).length ≤ 60 →
      auto_title_from_message content = pyStrip content) ∧
    (60 < (pyStripL content.data).length →
      auto_title_from_message content =
        String.mk ((pyStripL content.data).take 57 ++ ('.' :: '.' :: '.' :: [])) ∧
      (auto_title_from_message content).length = 60) := by
  constructor
  · intro h
    show String.mk (autoTitleL content.data) = String.mk (pyStripL content.data)
    unfold autoTitleL
    rw [if_pos h]
  · intro h
    have hne : ¬ (pyStripL content.data).length ≤ 60 := by omega
    constructor
    · show String.mk (autoTitleL content.data) = _
      unfold autoTitleL
      rw [if_neg hne]
    · show (String.mk (autoTitleL content.data)).length = 60
      have : (String.mk (autoTitleL content.data)).length = (autoTitleL content.data).length := rfl
      rw [this]
      unfold autoTitleL
      rw [if_neg hne]
      rw [List.length_append, List.length_take]
      simp only [List.length_cons, List.length_nil]
      omega

/-- C6 amended-claim witness at a concrete 70-character message: the title
has length exactly 60 and arises by truncation to 57 characters plus `"..."`. -/
theorem C6_title_truncation_witness :
    (auto_title_from_message (String.mk (List.replicate 70 'x'))).length = 60 ∧
    auto_title_from_message (String.mk (List.replicate 70 'x')) =
      String.mk (List.replicate 57 'x' ++ ('.' :: '.' :: '.' :: [])) := by
  have h := (C6_title_truncation (String.mk (List.replicate 70 'x'))).2 (by decide)
  refine ⟨h.2, ?_⟩
  rw [h.1]
  decide

/-! ### Source records and retrieval

One entry of `metadata.json` as produced by `build_db.py`: a dict with either
Quran fields (`surah_name`, `surah_number`, `verse_number`) or Hadith fields
(`collection`, `hadith_number`), plus `source_type`, `text_en`, `text_ar`,
`id`.  We model it as one record carrying all fields; the code only reads the
fields matching `source_type`. -/
structure SourceItem where
  source_type : String
  surah_name : String
  surah_number : Nat
  verse_number : Nat
  collection : String
  hadith_number : String
  text_en : String
  text_ar : String
  id : String
  deriving DecidableEq, Repr, Inhabited

/-- The hnswlib ANN index together with the sentence-transformer encoder,
treated as an external collaborator: a query and a `k` produce a row of
`(label, similarity score)` pairs (`index.knn_query` in the source). -/
def AnnIndex : Type := String → Nat → List (Nat × ℚ)

/-- `backend_cloud.retrieve_sources`:

```python
def retrieve_sources(query: str, k: int = 5) -> list[dict]:
    if not index or not metadata:
        return []
    query_embedding = embedding_model.encode([query]).astype('float32')
    labels, distances = index.knn_query(query_embedding, k=k)
    return [metadata[idx] for idx in labels[0]]
```

`index` is `None` while the index file is missing, and `metadata` is the
loaded list (empty when absent), so the guard is `index = none ∨ metadata = []`. -/
def retrieve_sources_k (index : Option AnnIndex) (metadata : List SourceItem)
    (query : String) (k : Nat) : List SourceItem :=
  match index with
  | none => []
  | some knn =>
    if metadata.isEmpty then []
    else (knn query k).map fun p => metadata.getD p.1 default

/-- `retrieve_sources` with the Python default `k = 5`. -/
def retrieve_sources (index : Option AnnIndex) (metadata : List SourceItem)
    (query : String) : List SourceItem :=
  retrieve_sources_k index metadata query 5

/-- The retrieval result paired with the similarity scores delivered by the
ANN collaborator: the source keeps `labels` and `distances` positionally
aligned, `metadata[labels[0][i]]` carrying score `distances-derived[i]`. -/
def retrieve_with_scores (index : Option AnnIndex) (metadata : List SourceItem)
    (query : String) (k : Nat) : List (SourceItem × ℚ) :=
  match index with
  | none => []
  | some knn =>
    if metadata.isEmpty then []
    else (knn query k).map fun p => (metadata.getD p.1 default, p.2)

/-! ### Claim C3 -/

/-- C3: `retrieve_sources` returns the empty list — and in particular never
fails — whenever the vector index is unavailable (`index = none`) or its
metadata is empty, and the `k` parameter defaults to `5`. -/
theorem C3_retrieve_empty_on_unavailable (index : Option AnnIndex)
    (metadata : List SourceItem) (query : String) (k : Nat)
    (h : index = none ∨ metadata = []) :
    retrieve_sources_k index metadata query k = [] ∧
    retrieve_sources index metadata query = retrieve_sources_k index metadata query 5 := by
  refine ⟨?_, rfl⟩
  rcases h with h | h
  · rw [h]; rfl
  · cases index with
    | none => rfl
    | some knn => simp [retrieve_sources_k, h]

/-- C3 witness: with no index loaded (and separately with empty metadata)
retrieval of a concrete query returns `[]`. -/
theorem C3_retrieve_empty_on_unavailable_witness :
    retrieve_sources_k none [] "what does scripture say about patience" 5 = [] :=
  (C3_retrieve_empty_on_unavailable none [] "what does scripture say about patience" 5
    (Or.inl rfl)).1

/-! ### Claim C5 -/

/-- C5: provided the ANN collaborator honours its contract on this query —
at most `k` rows, pairwise-distinct in-bounds labels, non-increasing
similarity scores — and the metadata ids are pairwise distinct (as built by
`build_db.py`), the retrieval result is an ordered sequence of at most `k`
items, its scores are non-increasing, it contains no duplicate source ids,
and dropping the scores gives exactly `retrieve_sources`. -/
theorem C5_retrieval_result_shape (knn : AnnIndex) (metadata : List SourceItem)
    (query : String) (k : Nat)
    (hlen : (knn query k).length ≤ k)
    (hnodup : ((knn query k).map Prod.fst).Nodup)
    (hbound : ∀ p ∈ knn query k, p.1 < metadata.length)
    (hsorted : ((knn query k).map Prod.snd).Chain' (· ≥ ·))
    (hids : (metadata.map SourceItem.id).Nodup) :
    (retrieve_with_scores (some knn) metadata query k).length ≤ k ∧
    ((retrieve_with_scores (some knn) metadata query k).map Prod.snd).Chain' (· ≥ ·) ∧
    ((retrieve_with_scores (some knn) metadata query k).map fun x => x.1.id).Nodup ∧
    (retrieve_with_scores (some knn) metadata query k).map Prod.fst =
      retrieve_sources_k (some knn) metadata query k := by
  by_cases hm : metadata.isEmpty
  · simp [retrieve_with_scores, retrieve_sources_k, hm]
  · have hr : retrieve_with_scores (some knn) metadata query k =
        (knn query k).map fun p => (metadata.getD p.1 default, p.2) := by
      simp [retrieve_with_scores, hm]
    refine ⟨?_, ?_, ?_, ?_⟩
    · rw [hr, List.length_map]; exact hlen
    · rw [hr, List.map_map]
      exact hsorted
    · rw [hr, List.map_map]
      have hl : (knn query k).Nodup := hnodup.of_map Prod.fst
      apply hl.map_on
      intro x hx y hy hxy
      have hx1 : x.1 < metadata.length := hbound x hx
      have hy1 : y.1 < metadata.length := hbound y hy
      have hid : metadata[x.1].id = metadata[y.1].id := by
        have hxy' : (metadata.getD x.1 default).id = (metadata.getD y.1 default).id := hxy
        rw [List.getD_eq_getElem metadata default hx1,
          List.getD_eq_getElem metadata default hy1] at hxy'
        exact hxy'
      have hmx : x.1 < (metadata.map SourceItem.id).length := by simpa using hx1
      have hmy : y.1 < (metadata.map SourceItem.id).length := by simpa using hy1
      have hfst : x.1 = y.1 := by
        have hmap : (metadata.map SourceItem.id)[x.1] =
            (metadata.map SourceItem.id)[y.1] := by
          simpa [List.getElem_map] using hid
        exact (hids.getElem_inj_iff).mp hmap
      exact List.inj_on_of_nodup_map hnodup hx hy hfst
    · rw [hr]
      simp [retrieve_sources_k, hm, List.map_map]

/-! ### `backend_cloud.parse_thinking_response`

```python
def parse_thinking_response(response: str) -> tuple[str, str]:
    think_match = re.search(r'<think>(.*?)</think>', response, re.DOTALL)
    if think_match:
        thinking = think_match.group(1).strip()
        answer = re.sub(r'<think>.*?</think>', '', response, flags=re.DOTALL).strip()
    else:
        thinking = ""
        answer = response.strip()
    return thinking, answer
```

`re.search` with the lazy group finds the first `<think>` that is followed by a
`</think>` and pairs it with the first such closer; `re.sub` removes all
non-overlapping such spans left to right.  `splitFirst` below is the
first-occurrence substring search both are built from. -/

/-- Split a character list at the first occurrence of `pat`:
`some (pre, post)` means `s = pre ++ pat ++ post` with the occurrence at the
earliest possible position. -/
def splitFirst (pat : List Char) : List Char → Option (List Char × List Char)
  | [] => if pat.isEmpty then some ([], []) else none
  | c :: rest =>
    if pat.isPrefixOf (c :: rest) then some ([], (c :: rest).drop pat.length)
    else
      match splitFirst pat rest with
      | some (pre, post) => some (c :: pre, post)
      | none => none

theorem splitFirst_sound {pat : List Char} :
    ∀ {s pre post : List Char}, splitFirst pat s = some (pre, post) →
      s = pre ++ pat ++ post := by
  intro s
  induction s with
  | nil =>
    intro pre post h
    unfold splitFirst at h
    by_cases hp : pat.isEmpty
    · rw [if_pos hp] at h
      obtain ⟨rfl, rfl⟩ := by simpa using h
      simp [List.isEmpty_iff.mp hp]
    · rw [if_neg hp] at h
      exact absurd h (by simp)
  | cons c rest ih =>
    intro pre post h
    unfold splitFirst at h
    by_cases hp : pat.isPrefixOf (c :: rest)
    · rw [if_pos hp] at h
      obtain ⟨t, ht⟩ := List.isPrefixOf_iff_prefix.mp hp
      obtain ⟨rfl, rfl⟩ : pre = [] ∧ (c :: rest).drop pat.length = post := by simpa using h
      rw [← ht, List.drop_left]
      simp
    · rw [if_neg hp] at h
      cases hsf : splitFirst pat rest with
      | none => rw [hsf] at h; exact absurd h (by simp)
      | some pr =>
        obtain ⟨a, b⟩ := pr
        rw [hsf] at h
        obtain ⟨rfl, rfl⟩ : c :: a = pre ∧ b = post := by simpa using h
        simpa using ih hsf

theorem splitFirst_first {pat : List Char} (hpat : pat ≠ []) :
    ∀ (pre post : List Char),
      (∀ i < pre.length, pat.isPrefixOf ((pre ++ pat ++ post).drop i) = false) →
      splitFirst pat (pre ++ pat ++ post) = some (pre, post) := by
  intro pre
  induction pre with
  | nil =>
    intro post _
    cases pat with
    | nil => exact absurd rfl hpat
    | cons p pt =>
      show splitFirst (p :: pt) (p :: (pt ++ post)) = some ([], post)
      unfold splitFirst
      rw [if_pos (List.isPrefixOf_iff_prefix.mpr ⟨post, by simp⟩)]
      simp [List.drop_succ_cons, List.drop_left]
  | cons c cs ih =>
    intro post hmin
    have h0 : pat.isPrefixOf (c :: (cs ++ pat ++ post)) = false := by
      simpa using hmin 0 (by simp)
    have h0' : ¬ pat <+: c :: (cs ++ pat ++ post) := by
      intro hc
      have hc' := List.isPrefixOf_iff_prefix.mpr hc
      rw [h0] at hc'
      exact Bool.false_ne_true hc'
    show splitFirst pat (c :: (cs ++ pat ++ post)) = some (c :: cs, post)
    unfold splitFirst
    rw [if_neg (by simpa using h0')]
    rw [ih post fun i hi => by simpa [List.drop_succ_cons] using hmin (i + 1) (by simp; omega)]

/-- The opening reasoning marker `<think>`. -/
def thinkOpen : List Char := "<think>".data

/-- The closing reasoning marker `</think>`. -/
def thinkClose : List Char := "</think>".data

/-- `re.sub(r'<think>.*?</think>', '', response, flags=re.DOTALL)`: remove all
non-overlapping lazily-matched `<think>…</think>` spans, scanning left to
right. -/
def removeThinkSpans (s : List Char) : List Char :=
  match h1 : splitFirst thinkOpen s with
  | none => s
  | some (pre, rest) =>
    match h2 : splitFirst thinkClose rest with
    | none => s
    | some (_, post) => pre ++ removeThinkSpans post
termination_by s.length
decreasing_by
  have e1 := splitFirst_sound h1
  have e2 := splitFirst_sound h2
  have l1 : thinkOpen.length = 7 := rfl
  have l2 : thinkClose.length = 8 := rfl
  rw [e1, e2]
  simp only [List.length_append, l1, l2]
  omega

/-- `re.search(r'<think>(.*?)</think>', response, re.DOTALL)`: the lazily
captured group of the first match, when one exists. -/
def findThinkMatch (s : List Char) : Option (List Char) :=
  match splitFirst thinkOpen s with
  | none => none
  | some (_, rest) =>
    match splitFirst thinkClose rest with
    | none => none
    | some (mid, _) => some mid

/-- `backend_cloud.parse_thinking_response`. -/
def parse_thinking_response (response : String) : String × String :=
  match findThinkMatch response.data with
  | some mid =>
    (String.mk (pyStripL mid), String.mk (pyStripL (removeThinkSpans response.data)))
  | none => ("", String.mk (pyStripL response.data))

theorem removeThinkSpans_of_noOpen {s : List Char}
    (h : splitFirst thinkOpen s = none) : removeThinkSpans s = s := by
  rw [removeThinkSpans.eq_def]
  split
  · rfl
  · next pre rest heq =>
    rw [h] at heq
    exact absurd heq (by simp)

theorem removeThinkSpans_of_noClose {s pre rest : List Char}
    (ho : splitFirst thinkOpen s = some (pre, rest))
    (hc : splitFirst thinkClose rest = none) : removeThinkSpans s = s := by
  rw [removeThinkSpans.eq_def]
  split
  · rfl
  · next pre' rest' heq =>
    rw [ho] at heq
    obtain ⟨rfl, rfl⟩ : pre' = pre ∧ rest' = rest := by
      have := Option.some.inj heq
      exact ⟨congrArg Prod.fst this.symm, congrArg Prod.snd this.symm⟩
    split
    · rfl
    · next mid post heq2 =>
      rw [hc] at heq2
      exact absurd heq2 (by simp)

theorem removeThinkSpans_step {s pre rest mid post : List Char}
    (ho : splitFirst thinkOpen s = some (pre, rest))
    (hc : splitFirst thinkClose rest = some (mid, post)) :
    removeThinkSpans s = pre ++ removeThinkSpans post := by
  rw [removeThinkSpans.eq_def]
  split
  · next heq =>
    rw [ho] at heq
    exact absurd heq (by simp)
  · next pre' rest' heq =>
    rw [ho] at heq
    obtain ⟨rfl, rfl⟩ : pre' = pre ∧ rest' = rest := by
      have := Option.some.inj heq
      exact ⟨congrArg Prod.fst this.symm, congrArg Prod.snd this.symm⟩
    split
    · next heq2 =>
      rw [hc] at heq2
      exact absurd heq2 (by simp)
    · next mid' post' heq2 =>
      rw [hc] at heq2
      obtain ⟨rfl, rfl⟩ : mid' = mid ∧ post' = post := by
        have := Option.some.inj heq2
        exact ⟨congrArg Prod.fst this.symm, congrArg Prod.snd this.symm⟩
      rfl

/-! ### Claim C7 -/

/-- C7: `parse_thinking_response` splits raw generation output as specified.
If the text decomposes as `pre ++ "<think>" ++ mid ++ "</think>" ++ post`
around the *first* paired reasoning marker (no `"<think>"` occurrence starts
inside `pre`, no `"</think>"` occurrence starts inside `mid` — the lazy
leftmost match of `re.search`), then the reasoning is precisely the enclosed
text trimmed, and the answer is the text with every marked span removed,
trimmed.  If no paired marker occurs (no such decomposition exists), the
reasoning is `""` and the answer is the whole text trimmed. -/
theorem C7_reasoning_split (response : String) :
    (∀ pre mid post : List Char,
      response.data = pre ++ thinkOpen ++ (mid ++ thinkClose ++ post) →
      (∀ i < pre.length, thinkOpen.isPrefixOf (response.data.drop i) = false) →
      (∀ j < mid.length,
        thinkClose.isPrefixOf ((mid ++ thinkClose ++ post).drop j) = false) →
      parse_thinking_response response =
        (String.mk (pyStripL mid),
         String.mk (pyStripL (pre ++ removeThinkSpans post)))) ∧
    ((∀ pre mid post : List Char,
        response.data ≠ pre ++ thinkOpen ++ (mid ++ thinkClose ++ post)) →
      parse_thinking_response response = ("", pyStrip response)) := by
  constructor
  · intro pre mid post hdec hpre hmid
    have ho : splitFirst thinkOpen response.data =
        some (pre, mid ++ thinkClose ++ post) := by
      rw [hdec]
      exact splitFirst_first (by decide) pre (mid ++ thinkClose ++ post)
        fun i hi => by rw [← hdec]; exact hpre i hi
    have hc : splitFirst thinkClose (mid ++ thinkClose ++ post) = some (mid, post) :=
      splitFirst_first (by decide) mid post hmid
    have hfind : findThinkMatch response.data = some mid := by
      unfold findThinkMatch
      simp only [ho, hc]
    have hrem : removeThinkSpans response.data = pre ++ removeThinkSpans post :=
      removeThinkSpans_step ho hc
    unfold parse_thinking_response
    rw [hfind, hrem]
  · intro hno
    cases hfm : findThinkMatch response.data with
    | none =>
      unfold parse_thinking_response
      rw [hfm]
      rfl
    | some mid =>
      exfalso
      unfold findThinkMatch at hfm
      cases ho : splitFirst thinkOpen response.data with
      | none =>
        simp only [ho] at hfm
        exact Option.noConfusion hfm
      | some pr =>
        obtain ⟨pre, rest⟩ := pr
        simp only [ho] at hfm
        cases hc : splitFirst thinkClose rest with
        | none =>
          simp only [hc] at hfm
          exact Option.noConfusion hfm
        | some mc =>
          obtain ⟨mid', post⟩ := mc
          have e1 := splitFirst_sound ho
          have e2 := splitFirst_sound hc
          exact hno pre mid' post (by rw [e1, e2])

/-- C7 witness at the concrete output `"<think>abc</think>hello"`:
reasoning `"abc"`, answer `"hello"`. -/
theorem C7_reasoning_split_witness :
    parse_thinking_response "<think>abc</think>hello" = ("abc", "hello") := by
  have h := (C7_reasoning_split "<think>abc</think>hello").1
    [] ('a' :: 'b' :: 'c' :: []) "hello".data
    (by decide) (fun i hi => absurd hi (by simp)) (by decide)
  rw [h]
  have hr : removeThinkSpans "hello".data = "hello".data :=
    removeThinkSpans_of_noOpen (by decide)
  rw [hr]
  decide

/-- A concrete Quran metadata row, for witnesses. -/
def sampleQuran : SourceItem :=
  { source_type := "quran", surah_name := "Al-Fatiha", surah_number := 1, verse_number := 1,
    collection := "", hadith_number := "", text_en := "Praise be to Allah",
    text_ar := "", id := "quran-1-1" }

/-- A concrete Hadith metadata row, for witnesses. -/
def sampleHadith : SourceItem :=
  { source_type := "hadith", surah_name := "", surah_number := 0, verse_number := 0,
    collection := "Sahih Bukhari", hadith_number := "1", text_en := "Actions are by intentions",
    text_ar := "", id := "hadith-bukhari-1" }

/-- C5 witness: a two-row index whose ANN collaborator returns labels 0 and 1
with scores 2 and 1 satisfies every contract hypothesis, and the retrieval
result indeed has at most 5 entries and duplicate-free ids. -/
theorem C5_retrieval_result_shape_witness :
    (retrieve_with_scores (some fun _ _ => [(0, (2 : ℚ)), (1, 1)])
      [sampleQuran, sampleHadith] "q" 5).length ≤ 5 ∧
    ((retrieve_with_scores (some fun _ _ => [(0, (2 : ℚ)), (1, 1)])
      [sampleQuran, sampleHadith] "q" 5).map fun x => x.1.id).Nodup := by
  have h := C5_retrieval_result_shape (fun _ _ => [(0, (2 : ℚ)), (1, 1)])
    [sampleQuran, sampleHadith] "q" 5 (by decide) (by decide) (by decide)
    (by norm_num [List.chain'_cons, List.chain'_singleton]) (by decide)
  exact ⟨h.1, h.2.2.1⟩

/-! ### The session store (`database.py` + the endpoints of `backend_cloud.py`)

A `Chat` row and a `Message` row, with the columns the claims are about
(timestamps are irrelevant to C8/C9/C10 and are omitted; `sources` is the
JSON column holding a list of reference objects). -/

/-- A compact source-reference object as returned by
`format_source_reference`: `{"type": "quran", ...}` or `{"type": "hadith", ...}`. -/
inductive SourceRef where
  | quran (surah_name : String) (verse_number : Nat)
  | hadith (collection : String) (hadith_number : String)
  deriving DecidableEq, Repr

/-- A row of the `chats` table. -/
structure ChatRec where
  id : String
  user_id : String
  title : String
  deriving DecidableEq, Repr

/-- A row of the `messages` table. -/
structure MessageRec where
  id : String
  chat_id : String
  role : String
  content : String
  thinking : Option String
  sources : Option (List SourceRef)
  is_bookmarked : Bool
  deriving DecidableEq, Repr

/-- The SQLite database: the `chats` and `messages` tables. -/
structure DB where
  chats : List ChatRec
  messages : List MessageRec
  deriving DecidableEq, Repr

/-- `database.get_chat_with_messages`: `chats` filtered on
`Chat.id == chat_id AND Chat.user_id == user_id`, `.first()`. -/
def get_chat_with_messages (db : DB) (chat_id user_id : String) : Option ChatRec :=
  db.chats.find? fun c => c.id == chat_id && c.user_id == user_id

/-- `database.update_chat_title`: look up the owned chat; if present set its
title and return it, else return `None` leaving the store unchanged. -/
def update_chat_title (db : DB) (chat_id user_id title : String) :
    Option ChatRec × DB :=
  match get_chat_with_messages db chat_id user_id with
  | none => (none, db)
  | some c =>
    (some { c with title := title },
     { db with chats := db.chats.map fun x =>
        if x.id == chat_id && x.user_id == user_id then { x with title := title } else x })

/-- `database.delete_chat`: delete the owned chat (and, by cascade, its
messages) returning `True`, else `False`. -/
def delete_chat (db : DB) (chat_id user_id : String) : Bool × DB :=
  match get_chat_with_messages db chat_id user_id with
  | none => (false, db)
  | some _ =>
    (true,
     { chats := db.chats.filter fun x => !(x.id == chat_id && x.user_id == user_id),
       messages := db.messages.filter fun m => !(m.chat_id == chat_id) })

/-- The SQL join in `toggle_bookmark`: the first message whose id matches and
whose owning chat belongs to the caller. -/
def findOwnedMessage (db : DB) (message_id user_id : String) : Option MessageRec :=
  db.messages.find? fun m =>
    m.id == message_id && db.chats.any fun c => c.id == m.chat_id && c.user_id == user_id

/-- Replace the first element satisfying `p` by its `f`-image (the
SQLAlchemy `.first()` row mutation). -/
def updateFirst {α : Type} (p : α → Bool) (f : α → α) : List α → List α
  | [] => []
  | a :: rest => if p a then f a :: rest else a :: updateFirst p f rest

/-- `backend_cloud.toggle_bookmark` endpoint: 404 when no matching owned
message exists, otherwise flip `is_bookmarked` and return the new flag. -/
def toggle_bookmark (db : DB) (message_id user_id : String) :
    Except Nat (Bool × DB) :=
  match findOwnedMessage db message_id user_id with
  | none => Except.error 404
  | some m =>
    let newMessages := updateFirst
      (fun x => x.id == message_id &&
        db.chats.any fun c => c.id == x.chat_id && c.user_id == user_id)
      (fun x => { x with is_bookmarked := !x.is_bookmarked })
      db.messages
    Except.ok (!m.is_bookmarked, { db with messages := newMessages })

/-- `backend_cloud.get_chat` endpoint: 404 when the owned chat is absent. -/
def get_chat_endpoint (db : DB) (chat_id user_id : String) : Except Nat ChatRec :=
  match get_chat_with_messages db chat_id user_id with
  | none => Except.error 404
  | some c => Except.ok c

/-- `backend_cloud.rename_chat` endpoint: 404 when `update_chat_title`
returns `None`. -/
def rename_chat (db : DB) (chat_id user_id title : String) :
    Except Nat (ChatRec × DB) :=
  match update_chat_title db chat_id user_id title with
  | (none, _) => Except.error 404
  | (some c, db1) => Except.ok (c, db1)

/-- `backend_cloud.remove_chat` endpoint: 404 when `delete_chat` returns
`False`. -/
def remove_chat (db : DB) (chat_id user_id : String) : Except Nat DB :=
  match delete_chat db chat_id user_id with
  | (false, _) => Except.error 404
  | (true, db1) => Except.ok db1

theorem find?_updateFirst {α : Type} (p : α → Bool) (f : α → α) (l : List α)
    (hf : ∀ a, p (f a) = p a) :
    (updateFirst p f l).find? p = (l.find? p).map f := by
  induction l with
  | nil => rfl
  | cons a rest ih =>
    by_cases h : p a
    · simp [updateFirst, h, hf a, List.find?_cons]
    · simp [updateFirst, h, List.find?_cons, ih]

/-! ### Claim C8 -/

/-- C8: when a message owned by the caller exists, toggling its bookmark once
returns (and stores) the flipped flag, and toggling twice restores the
message — flag included — to its original value. -/
theorem C8_toggle_involution (db : DB) (mid uid : String) (m : MessageRec)
    (h : findOwnedMessage db mid uid = some m) :
    ∃ db1, toggle_bookmark db mid uid = Except.ok (!m.is_bookmarked, db1) ∧
      findOwnedMessage db1 mid uid = some { m with is_bookmarked := !m.is_bookmarked } ∧
      ∃ db2, toggle_bookmark db1 mid uid = Except.ok (m.is_bookmarked, db2) ∧
        findOwnedMessage db2 mid uid = some m := by
  classical
  set p : MessageRec → Bool := fun x =>
    x.id == mid && db.chats.any fun c => c.id == x.chat_id && c.user_id == uid with hp
  set f : MessageRec → MessageRec := fun x =>
    { x with is_bookmarked := !x.is_bookmarked } with hfdef
  have hpf : ∀ a, p (f a) = p a := fun a => rfl
  have hm : db.messages.find? p = some m := h
  refine ⟨{ db with messages := updateFirst p f db.messages }, ?_, ?_, ?_⟩
  · unfold toggle_bookmark
    simp only [h]
  · show (updateFirst p f db.messages).find? p = some (f m)
    rw [find?_updateFirst p f db.messages hpf, hm]
    rfl
  · have hfind1 : findOwnedMessage { db with messages := updateFirst p f db.messages }
        mid uid = some (f m) := by
      show (updateFirst p f db.messages).find? p = some (f m)
      rw [find?_updateFirst p f db.messages hpf, hm]
      rfl
    refine ⟨{ db with messages := updateFirst p f (updateFirst p f db.messages) }, ?_, ?_⟩
    · unfold toggle_bookmark
      simp only [hfind1, Bool.not_not]
    · show (updateFirst p f (updateFirst p f db.messages)).find? p = some m
      rw [find?_updateFirst p f (updateFirst p f db.messages) hpf,
        find?_updateFirst p f db.messages hpf, hm]
      show some (f (f m)) = some m
      have hffm : f (f m) = m := by
        show { m with is_bookmarked := !(!m.is_bookmarked) } = m
        rw [Bool.not_not]
      rw [hffm]

/-- A concrete chat row, for witnesses. -/
def sampleChat : ChatRec := { id := "c1", user_id := "u1", title := "New Chat" }

/-- A concrete message row, for witnesses. -/
def sampleMessage : MessageRec :=
  { id := "m1", chat_id := "c1", role := "user", content := "hello",
    thinking := none, sources := none, is_bookmarked := false }

/-- A concrete store with one chat of user `u1` and one message in it. -/
def sampleDB : DB := { chats := [sampleChat], messages := [sampleMessage] }

/-- C8 witness: concretely toggling message `m1` of user `u1` twice yields
flags `true` then `false` and restores the stored message. -/
theorem C8_toggle_involution_witness :
    ∃ db1, toggle_bookmark sampleDB "m1" "u1" = Except.ok (true, db1) ∧
      ∃ db2, toggle_bookmark db1 "m1" "u1" = Except.ok (false, db2) ∧
        findOwnedMessage db2 "m1" "u1" = some sampleMessage := by
  obtain ⟨db1, e1, _, db2, e2, hf2⟩ :=
    C8_toggle_involution sampleDB "m1" "u1" sampleMessage (by decide)
  exact ⟨db1, e1, db2, e2, hf2⟩

/-! ### Claim C9 -/

/-- C9: every session-store endpoint — get, rename, delete, bookmark-toggle —
reacts to an id that is not owned by the caller exactly as to a missing id:
the single hypothesis "no row with this id belongs to the caller" covers both
the wrong-owner and the truly-missing case, and under it all four endpoints
answer 404 (leaving the store untouched, as the error value carries no store). -/
theorem C9_ownership_no_leak (db : DB) (cid mid uid title : String)
    (hchat : ∀ c ∈ db.chats, c.id = cid → c.user_id ≠ uid)
    (hmsg : ∀ m ∈ db.messages, m.id = mid →
      ∀ c ∈ db.chats, c.id = m.chat_id → c.user_id ≠ uid) :
    get_chat_endpoint db cid uid = Except.error 404 ∧
    rename_chat db cid uid title = Except.error 404 ∧
    remove_chat db cid uid = Except.error 404 ∧
    toggle_bookmark db mid uid = Except.error 404 := by
  have hfind : get_chat_with_messages db cid uid = none := by
    apply List.find?_eq_none.mpr
    intro c hc
    intro hcontra
    obtain ⟨h1, h2⟩ : c.id = cid ∧ c.user_id = uid := by simpa using hcontra
    exact hchat c hc h1 h2
  have hfindm : findOwnedMessage db mid uid = none := by
    apply List.find?_eq_none.mpr
    intro m hmem
    intro hcontra
    obtain ⟨h1, c, hc, h2, h3⟩ :
        m.id = mid ∧ ∃ c ∈ db.chats, c.id = m.chat_id ∧ c.user_id = uid := by
      simpa [List.any_eq_true] using hcontra
    exact hmsg m hmem h1 c hc h2 h3
  refine ⟨?_, ?_, ?_, ?_⟩
  · unfold get_chat_endpoint
    simp only [hfind]
  · unfold rename_chat update_chat_title
    simp only [hfind]
  · unfold remove_chat delete_chat
    simp only [hfind]
  · unfold toggle_bookmark
    simp only [hfindm]

/-- C9 witness: with the store holding chat `c1` (and message `m1`) owned by
`u1`, a caller `u9` gets 404 from all four endpoints, exactly as for a
missing id. -/
theorem C9_ownership_no_leak_witness :
    get_chat_endpoint sampleDB "c1" "u9" = Except.error 404 ∧
    rename_chat sampleDB "c1" "u9" "t" = Except.error 404 ∧
    remove_chat sampleDB "c1" "u9" = Except.error 404 ∧
    toggle_bookmark sampleDB "m1" "u9" = Except.error 404 :=
  C9_ownership_no_leak sampleDB "c1" "m1" "u9" "t" (by decide) (by decide)

/-! ### Small-talk classification

`GREETING_PATTERNS` of `backend.py` / `backend_cloud.py`: five anchored
regexes of the shape `^(alt|alt|…)[\s!?.]*$` whose alternatives are literal
words separated by `\s*` gaps, with an optional apostrophe in two of them.
Each alternation is expanded below into a list of element sequences. -/

/-- One element of an expanded greeting-regex alternative. -/
inductive PatElem where
  | lit (w : List Char)
  | ws
  | opt (c : Char)
  deriving Repr

/-- The closing character class `[\s!?.]` of every greeting pattern. -/
def isTrailer (c : Char) : Bool :=
  isPyWhitespace c || c = '!' || c = '?' || c = '.'

/-- Match one expanded alternative anchored at the start, followed by
`[\s!?.]*$`. -/
def matchSeq : List PatElem → List Char → Bool
  | [], s => s.all isTrailer
  | PatElem.lit w :: ps, s => w.isPrefixOf s && matchSeq ps (s.drop w.length)
  | PatElem.ws :: ps, s => matchSeq ps (s.dropWhile isPyWhitespace)
  | PatElem.opt c :: ps, s =>
    match s with
    | [] => matchSeq ps []
    | c1 :: rest => (c1 == c && matchSeq ps rest) || matchSeq ps (c1 :: rest)

/-- A literal pattern element. -/
def litP (s : String) : PatElem := PatElem.lit s.data

/-- `GREETING_PATTERNS`, alternations expanded (the apostrophe is
`Char.ofNat 39`). -/
def GREETING_PATTERNS : List (List PatElem) :=
  [ [litP "hi"], [litP "hello"], [litP "hey"], [litP "howdy"], [litP "hiya"],
    [litP "greetings"], [litP "salaam"], [litP "assalamu alaikum"], [litP "salam"],
    [litP "good", PatElem.ws, litP "morning"],
    [litP "good", PatElem.ws, litP "afternoon"],
    [litP "good", PatElem.ws, litP "evening"],
    [litP "good", PatElem.ws, litP "day"],
    [litP "how", PatElem.ws, litP "are", PatElem.ws, litP "you"],
    [litP "how", PatElem.opt (Char.ofNat 39), litP "s", PatElem.ws, litP "it",
      PatElem.ws, litP "going"],
    [litP "what", PatElem.opt (Char.ofNat 39), litP "s", PatElem.ws, litP "up"],
    [litP "sup"],
    [litP "thanks"], [litP "thank", PatElem.ws, litP "you"], [litP "thx"],
    [litP "bye"], [litP "goodbye"],
    [litP "see", PatElem.ws, litP "you"], [litP "take", PatElem.ws, litP "care"] ]

/-- `is_small_talk`: lowercase, strip, and test the pattern list. -/
def is_small_talk (query : String) : Bool :=
  let normalized := pyStripL (query.data.map Char.toLower)
  GREETING_PATTERNS.any fun pat => matchSeq pat normalized

/-! ### `backend.search_orthodox_web` (DuckDuckGo collaborator) -/

/-- One DuckDuckGo result row. -/
structure SearchHit where
  title : String
  body : String
  href : String
  deriving Repr, DecidableEq

/-- The body of the `for i, r in enumerate(results, 1)` formatting loop. -/
def format_search_hit (i : Nat) (r : SearchHit) : String :=
  "\n[" ++ toString i ++ "] " ++ r.title ++ "\n    " ++
    String.mk (r.body.data.take 200) ++ "...\n    Source: " ++ r.href ++ "\n"

/-- `backend.search_orthodox_web`: the DuckDuckGo call either raises (the
`except` arm returns `""`) or yields a result list; no results also yield
`""`, otherwise a header plus one block per result. -/
def search_orthodox_web (outcome : Except Unit (List SearchHit)) : String :=
  match outcome with
  | Except.error _ => ""
  | Except.ok [] => ""
  | Except.ok results =>
    "🌐 EXTERNAL SCHOLARLY RESOURCES:\n" ++
      String.join (results.enum.map fun p => format_search_hit (p.1 + 1) p.2)

/-! ### Context composition (`backend.generate_response`) -/

/-- `format_source_for_context` (`or`-defaults for falsy text fields). -/
def format_source_for_context (item : SourceItem) : String :=
  let text_ar := if item.text_ar = "" then "[Arabic unavailable]" else item.text_ar
  let text_en := if item.text_en = "" then "[English unavailable]" else item.text_en
  if item.source_type = "quran" then
    "📖 Quran " ++ item.surah_name ++ " [" ++ toString item.surah_number ++ ":" ++
      toString item.verse_number ++ "]\n   Arabic: " ++ text_ar ++
      "\n   English: " ++ text_en
  else
    "📜 " ++ item.collection ++ " Hadith #" ++ item.hadith_number ++
      "\n   Arabic: " ++ text_ar ++ "\n   English: " ++ text_en

/-- `format_source_reference`: the compact citation object. -/
def format_source_reference (item : SourceItem) : SourceRef :=
  if item.source_type = "quran" then SourceRef.quran item.surah_name item.verse_number
  else SourceRef.hadith item.collection item.hadith_number

/-- One history entry (`{"role": …, "content": …}`). -/
structure HistMsg where
  role : String
  content : String
  deriving Repr, DecidableEq

/-- `format_history_for_prompt`: last 6 turns, contents truncated to 500
characters. -/
def format_history_for_prompt (history : List HistMsg) : String :=
  if history.isEmpty then ""
  else
    "PREVIOUS CONVERSATION:\n" ++
      String.join ((history.drop (history.length - 6)).map fun msg =>
        (if msg.role = "user" then "User" else "Scholar") ++ ": " ++
          String.mk (msg.content.data.take 500) ++ "\n") ++ "\n"

/-- The local-sources block of `backend.generate_response`, with the
no-match sentinel. -/
def local_context (sources : List SourceItem) : String :=
  if sources.isEmpty then
    "📚 LOCAL QURAN/HADITH SOURCES:\n[No directly matching sources found in local database]"
  else
    "📚 LOCAL QURAN/HADITH SOURCES:\n" ++
      String.intercalate "\n\n" (sources.map format_source_for_context)

/-- The web block of `backend.generate_response`: initialised to `""` and
assigned from `search_orthodox_web` only under the `len(sources) < 2` guard. -/
def web_context (search : Except Unit (List SearchHit))
    (sources : List SourceItem) : String :=
  if sources.length < 2 then search_orthodox_web search else ""

/-- The guard of the web-search call: the external collaborator is invoked
exactly when this is `true`. -/
def web_search_invoked (sources : List SourceItem) : Bool :=
  decide (sources.length < 2)

/-- The composed user prompt of `backend.generate_response`. -/
def user_prompt (search : Except Unit (List SearchHit)) (query : String)
    (sources : List SourceItem) (history : List HistMsg) : String :=
  format_history_for_prompt history ++ local_context sources ++ "\n\n" ++
    web_context search sources ++ "\n\nCURRENT QUESTION: " ++ query ++
    "\n\nRespond as the Fluid Mentor, weaving citations naturally into your answer."

/-! ### Generation (`backend.call_llm`, `backend.generate_response`) -/

/-- The generation backend collaborator: final prompt text to raw output or
an exception (the fixed system prompt is part of the collaborator). -/
def LLM : Type := String → Except Unit String

/-- `backend.call_llm`: append the `/no_think` suffix, call, strip. -/
def call_llm (llm : LLM) (prompt : String) : Except Unit String :=
  match llm (prompt ++ " /no_think") with
  | Except.error e => Except.error e
  | Except.ok content => Except.ok (pyStrip content)

/-- The per-source excerpt of the fallback reply:
`text_en[:400] + "..." if len(text_en) > 400 else text_en`. -/
def truncate_excerpt (t : String) : String :=
  if 400 < t.data.length then String.mk (t.data.take 400) ++ "..." else t

/-- One source block of the fallback reply: bolded citation header plus the
possibly-truncated translated text. -/
def fallback_entry (s : SourceItem) : String :=
  (if s.source_type = "quran" then
    "📖 **" ++ s.surah_name ++ ":" ++ toString s.verse_number ++ "**\n"
   else
    "📜 **" ++ s.collection ++ " #" ++ s.hadith_number ++ "**\n") ++
  "> " ++ truncate_excerpt s.text_en ++ "\n\n"

/-- The deterministic fallback reply text (identical in both backends). -/
def fallback_text (sources : List SourceItem) : String :=
  "Bismillah. Here are the most relevant sources:\n\n" ++
    String.join (sources.map fallback_entry)

/-- The result dict of `backend.generate_response`. -/
structure GenResult where
  response : String
  success : Bool
  deriving Repr, DecidableEq

/-- `backend.generate_response`: try the LLM on the composed prompt; an
exception or empty answer falls back to the source listing with
`success = False`. -/
def generate_response (llm : LLM) (search : Except Unit (List SearchHit))
    (query : String) (sources : List SourceItem) (history : List HistMsg) :
    GenResult :=
  match call_llm llm (user_prompt search query sources history) with
  | Except.ok answer =>
    if answer = "" then { response := fallback_text sources, success := false }
    else { response := answer, success := true }
  | Except.error _ => { response := fallback_text sources, success := false }

/-- `backend.handle_small_talk`. -/
def handle_small_talk (llm : LLM) (query : String) (history : List HistMsg) :
    GenResult :=
  match call_llm llm (format_history_for_prompt history ++ "User: " ++ query) with
  | Except.ok answer =>
    { response := if answer = "" then "Assalamu Alaikum! How can I help you today?"
        else answer,
      success := true }
  | Except.error _ =>
    { response := "Assalamu Alaikum! 🌙 How can I help?", success := false }

/-- The body of `backend.chat` (`POST /chat`). -/
structure ChatReply where
  response : String
  sources_used : List SourceRef
  deriving Repr, DecidableEq

/-- `backend.chat`: small talk short-circuits with no sources; otherwise
retrieve (k = 5), generate, and surface citations only on success. -/
def chat_endpoint (llm : LLM) (search : Except Unit (List SearchHit))
    (index : Option AnnIndex) (metadata : List SourceItem)
    (query : String) (history : List HistMsg) : ChatReply :=
  if is_small_talk query then
    { response := (handle_small_talk llm query history).response, sources_used := [] }
  else
    let sources := retrieve_sources index metadata query
    let result := generate_response llm search query sources history
    { response := result.response,
      sources_used := if result.success then sources.map format_source_reference
        else [] }

/-! ### Claim C1 -/

/-- C1: the external web-search block of the composed prompt is driven
exactly by the local-source count: the collaborator is invoked iff fewer
than 2 local sources were retrieved; when invoked, its formatted results
(`""` on failure) become the block; with 2 or more local sources the block
is `""` and no invocation happens; and the composed prompt embeds exactly
this block between the local-sources block and the current question. -/
theorem C1_web_fallback_trigger (search : Except Unit (List SearchHit))
    (query : String) (sources : List SourceItem) (history : List HistMsg) :
    (web_search_invoked sources = true ↔ sources.length < 2) ∧
    (sources.length < 2 →
      web_context search sources = search_orthodox_web search) ∧
    (2 ≤ sources.length →
      web_search_invoked sources = false ∧ web_context search sources = "") ∧
    (search = Except.error () → web_context search sources = "") ∧
    user_prompt search query sources history =
      format_history_for_prompt history ++ local_context sources ++ "\n\n" ++
        web_context search sources ++ "\n\nCURRENT QUESTION: " ++ query ++
        "\n\nRespond as the Fluid Mentor, weaving citations naturally into your answer." := by
  refine ⟨?_, ?_, ?_, ?_, rfl⟩
  · simp [web_search_invoked]
  · intro h
    simp [web_context, h]
  · intro h
    have hn : ¬ sources.length < 2 := by omega
    exact ⟨by simp [web_search_invoked, hn], by simp [web_context, hn]⟩
  · intro h
    subst h
    by_cases hl : sources.length < 2
    · simp [web_context, hl, search_orthodox_web]
    · simp [web_context, hl]

/-- C1 witness: with no local source and a failing search the block is the
(empty) search result; with two local sources no invocation happens; with a
successful search and no local source the block is its formatted output. -/
theorem C1_web_fallback_trigger_witness :
    web_context (Except.error ()) [] = search_orthodox_web (Except.error ()) ∧
    web_search_invoked [sampleQuran, sampleHadith] = false ∧
    web_context (Except.ok [⟨"t", "b", "h"⟩]) [] =
      search_orthodox_web (Except.ok [⟨"t", "b", "h"⟩]) := by
  refine ⟨(C1_web_fallback_trigger (Except.error ()) "" [] []).2.1 (by decide),
    ((C1_web_fallback_trigger (Except.error ()) "" [sampleQuran, sampleHadith] []).2.2.1
      (by decide)).1,
    (C1_web_fallback_trigger (Except.ok [⟨"t", "b", "h"⟩]) "" [] []).2.1 (by decide)⟩

theorem generate_response_of_fail (llm : LLM) (search : Except Unit (List SearchHit))
    (query : String) (sources : List SourceItem) (history : List HistMsg)
    (hfail : call_llm llm (user_prompt search query sources history) = Except.error () ∨
      call_llm llm (user_prompt search query sources history) = Except.ok "") :
    generate_response llm search query sources history =
      { response := fallback_text sources, success := false } := by
  unfold generate_response
  rcases hfail with h | h
  · simp only [h]
  · simp only [h]
    simp

theorem generate_response_success_shape (llm : LLM)
    (search : Except Unit (List SearchHit)) (query : String)
    (sources : List SourceItem) (history : List HistMsg)
    (h : (generate_response llm search query sources history).success = false) :
    generate_response llm search query sources history =
      { response := fallback_text sources, success := false } := by
  unfold generate_response at h ⊢
  cases hc : call_llm llm (user_prompt search query sources history) with
  | error e => rfl
  | ok answer =>
    simp only [hc] at h ⊢
    by_cases ha : answer = ""
    · simp [ha]
    · rw [if_neg ha] at h
      exact absurd h (by simp)

/-! ### Claim C2 -/

/-- C2: on the substantive path of `POST /chat`, `sources_used` is `[]`
exactly when generation failed — in which case the reply text is nonetheless
the fallback built from the retrieved sources — and on success it is every
retrieved source mapped through `format_source_reference`. -/
theorem C2_citation_asymmetry (llm : LLM) (search : Except Unit (List SearchHit))
    (index : Option AnnIndex) (metadata : List SourceItem)
    (query : String) (history : List HistMsg)
    (hsub : is_small_talk query = false) :
    ((generate_response llm search query (retrieve_sources index metadata query)
        history).success = false →
      (chat_endpoint llm search index metadata query history).sources_used = [] ∧
      (chat_endpoint llm search index metadata query history).response =
        fallback_text (retrieve_sources index metadata query)) ∧
    ((generate_response llm search query (retrieve_sources index metadata query)
        history).success = true →
      (chat_endpoint llm search index metadata query history).sources_used =
        (retrieve_sources index metadata query).map format_source_reference) := by
  have hch : chat_endpoint llm search index metadata query history =
      { response := (generate_response llm search query
          (retrieve_sources index metadata query) history).response,
        sources_used := if (generate_response llm search query
            (retrieve_sources index metadata query) history).success then
          (retrieve_sources index metadata query).map format_source_reference
          else [] } := by
    unfold chat_endpoint
    rw [hsub]
    simp
  constructor
  · intro hfail
    rw [hch]
    have hg := generate_response_success_shape llm search query
      (retrieve_sources index metadata query) history hfail
    constructor
    · simp [hfail]
    · rw [hg]
  · intro hsucc
    rw [hch]
    simp [hsucc]

/-- C2 witness: a failing generation backend on a concrete substantive query
yields empty `sources_used` while the reply text is the source-built
fallback. -/
theorem C2_citation_asymmetry_witness :
    (chat_endpoint (fun _ => Except.error ()) (Except.error ()) none []
      "what does scripture say about patience" []).sources_used = [] ∧
    (chat_endpoint (fun _ => Except.error ()) (Except.error ()) none []
      "what does scripture say about patience" []).response =
      fallback_text (retrieve_sources none [] "what does scripture say about patience") :=
  (C2_citation_asymmetry (fun _ => Except.error ()) (Except.error ()) none []
    "what does scripture say about patience" [] (by decide)).1 rfl

/-! ### Claim C4 -/

/-- C4: on generation failure (exception, or empty output) the synthesized
reply has `success = false` and non-empty text: the fixed header followed by,
per retrieved source, a bolded citation header plus its translated text,
where the excerpt is `text_en[:400] + "..."` exactly when the translated
text exceeds 400 characters, and the unmodified text otherwise. -/
theorem C4_fallback_reply (llm : LLM) (search : Except Unit (List SearchHit))
    (query : String) (sources : List SourceItem) (history : List HistMsg)
    (hfail : call_llm llm (user_prompt search query sources history) = Except.error () ∨
      call_llm llm (user_prompt search query sources history) = Except.ok "") :
    (generate_response llm search query sources history).success = false ∧
    (generate_response llm search query sources history).response =
      "Bismillah. Here are the most relevant sources:\n\n" ++
        String.join (sources.map fallback_entry) ∧
    (generate_response llm search query sources history).response ≠ "" ∧
    ∀ s ∈ sources,
      (400 < s.text_en.data.length →
        truncate_excerpt s.text_en = String.mk (s.text_en.data.take 400) ++ "...") ∧
      (s.text_en.data.length ≤ 400 → truncate_excerpt s.text_en = s.text_en) := by
  have hg := generate_response_of_fail llm search query sources history hfail
  rw [hg]
  refine ⟨rfl, rfl, ?_, ?_⟩
  · intro he
    have hlen := congrArg String.length he
    rw [show (fallback_text sources) =
      "Bismillah. Here are the most relevant sources:\n\n" ++
        String.join (sources.map fallback_entry) from rfl] at hlen
    rw [String.length_append] at hlen
    have hpos : 0 < ("Bismillah. Here are the most relevant sources:\n\n" : String).length := by
      decide
    have hz : ("" : String).length = 0 := rfl
    rw [hz] at hlen
    omega
  · intro s _
    constructor
    · intro h
      unfold truncate_excerpt
      rw [if_pos h]
    · intro h
      unfold truncate_excerpt
      rw [if_neg (by omega)]

/-- A source row whose translation is 401 characters long, for the C4
witness. -/
def longSample : SourceItem :=
  { sampleQuran with text_en := String.mk (List.replicate 401 'a') }

/-- C4 witness: a timing-out backend with one retrieved source whose
translation is 401 characters long produces a failed reply whose text is
non-empty and whose excerpt is the 400-character prefix plus `"..."`. -/
theorem C4_fallback_reply_witness :
    (generate_response (fun _ => Except.error ()) (Except.error ()) "q"
      [longSample] []).success = false ∧
    (generate_response (fun _ => Except.error ()) (Except.error ()) "q"
      [longSample] []).response ≠ "" ∧
    truncate_excerpt longSample.text_en =
      String.mk (List.replicate 400 'a') ++ "..." := by
  have h := C4_fallback_reply (fun _ => Except.error ()) (Except.error ()) "q"
    [longSample] [] (Or.inl rfl)
  refine ⟨h.1, h.2.2.1, ?_⟩
  have hmem : longSample ∈ [longSample] := List.mem_singleton.mpr rfl
  have hlen : longSample.text_en.data.length = 401 := by
    show (List.replicate 401 'a').length = 401
    exact List.length_replicate 401 'a'
  have ht := (h.2.2.2 longSample hmem).1 (by omega)
  rw [ht]
  show String.mk ((List.replicate 401 'a').take 400) ++ "..." = _
  rw [List.take_replicate, Nat.min_eq_left (by omega)]

/-! ### The authenticated cloud pipeline (`backend_cloud.py`) -/

/-- The result dict of `backend_cloud.generate_response` /
`handle_small_talk` (these carry a `thinking` field). -/
structure CloudGenResult where
  response : String
  thinking : String
  success : Bool
  deriving Repr, DecidableEq

/-- `backend_cloud.call_llm`: call the provider, strip the raw content and
split it with `parse_thinking_response`, returning `(thinking, answer)`. -/
def cloud_call_llm (llm : LLM) (prompt : String) : Except Unit (String × String) :=
  match llm prompt with
  | Except.error e => Except.error e
  | Except.ok content => Except.ok (parse_thinking_response (pyStrip content))

/-- The local-sources block of `backend_cloud.generate_response` (its
no-match sentinel is shorter than `backend.py`'s). -/
def cloud_local_context (sources : List SourceItem) : String :=
  if sources.isEmpty then
    "📚 LOCAL QURAN/HADITH SOURCES:\n[No directly matching sources found]"
  else
    "📚 LOCAL QURAN/HADITH SOURCES:\n" ++
      String.intercalate "\n\n" (sources.map format_source_for_context)

/-- The prompt composed by `backend_cloud.generate_response` — note: no
external web-search block exists in this variant. -/
def cloud_user_prompt (query : String) (sources : List SourceItem)
    (history : List HistMsg) : String :=
  format_history_for_prompt history ++ cloud_local_context sources ++
    "\n\nCURRENT QUESTION: " ++ query ++
    "\n\nRespond as the Fluid Mentor, weaving citations naturally into your answer."

/-- `backend_cloud.generate_response`. -/
def generate_response_cloud (llm : LLM) (query : String)
    (sources : List SourceItem) (history : List HistMsg) : CloudGenResult :=
  match cloud_call_llm llm (cloud_user_prompt query sources history) with
  | Except.ok (thinking, answer) =>
    if answer = "" then
      { response := fallback_text sources, thinking := "", success := false }
    else { response := answer, thinking := thinking, success := true }
  | Except.error _ =>
    { response := fallback_text sources, thinking := "", success := false }

/-- `backend_cloud.handle_small_talk`. -/
def handle_small_talk_cloud (llm : LLM) (query : String)
    (history : List HistMsg) : CloudGenResult :=
  match cloud_call_llm llm (format_history_for_prompt history ++ "User: " ++ query) with
  | Except.ok (thinking, answer) =>
    { response := if answer = "" then "Assalamu Alaikum! How can I help you today?"
        else answer,
      thinking := thinking, success := true }
  | Except.error _ =>
    { response := "Assalamu Alaikum! 🌙 How can I help?", thinking := "",
      success := false }

/-- `database.add_message`: append a message row.  The uuid primary key is
drawn externally and passed in as `new_id`; only `chat_id`, `role`,
`content`, `thinking` and `sources` are set by the caller, `is_bookmarked`
defaults to false.  (The chat's `updated_at` touch carries no information
used by the claims and is not modelled.) -/
def add_message (db : DB) (new_id chat_id role content : String)
    (thinking : Option String) (sources : Option (List SourceRef)) :
    MessageRec × DB :=
  let msg : MessageRec :=
    { id := new_id, chat_id := chat_id, role := role, content := content,
      thinking := thinking, sources := sources, is_bookmarked := false }
  (msg, { db with messages := db.messages ++ [msg] })

/-- The messages of one chat, as the ordered SQLAlchemy relationship
`chat.messages` returns them. -/
def chatMessages (db : DB) (chat_id : String) : List MessageRec :=
  db.messages.filter fun m => m.chat_id == chat_id

/-- The history window built by `_process_message`: the chat's last 6
messages mapped to `{"role", "content"}` dicts. -/
def process_history (db : DB) (chat_id : String) : List HistMsg :=
  ((chatMessages db chat_id).drop ((chatMessages db chat_id).length - 6)).map
    fun m => { role := m.role, content := m.content }

/-- The generation step of `_process_message`: small-talk or RAG branch. -/
def process_result (llm : LLM) (index : Option AnnIndex)
    (metadata : List SourceItem) (user_message : String)
    (history : List HistMsg) : CloudGenResult :=
  if is_small_talk user_message then handle_small_talk_cloud llm user_message history
  else generate_response_cloud llm user_message
    (retrieve_sources index metadata user_message) history

/-- The `sources_used` list of `_process_message`: empty on the small-talk
branch, and on the RAG branch the mapped references only when generation
succeeded. -/
def process_sources (llm : LLM) (index : Option AnnIndex)
    (metadata : List SourceItem) (user_message : String)
    (history : List HistMsg) : List SourceRef :=
  if is_small_talk user_message then []
  else if (process_result llm index metadata user_message history).success then
    (retrieve_sources index metadata user_message).map format_source_reference
  else []

/-- The reply dict of `backend_cloud._process_message`. -/
structure ProcessReply where
  response : String
  chat_id : String
  message_id : String
  user_message_id : String
  thinking : String
  sources_used : List SourceRef
  is_bookmarked : Bool
  deriving Repr, DecidableEq

/-- `backend_cloud._process_message`: persist the user turn, build the
history window, generate, persist the assistant turn **with only role and
content** (`add_message(db, chat.id, role="assistant",
content=result["response"])`, leaving `thinking` and `sources` at their
`None` defaults), and return the reply carrying the reasoning and the
mapped `sources_used`. -/
def process_message (llm : LLM) (index : Option AnnIndex)
    (metadata : List SourceItem) (db : DB) (chat : ChatRec)
    (user_message uid1 uid2 : String) : ProcessReply × DB :=
  let userAdd := add_message db uid1 chat.id "user" user_message none none
  let history := process_history userAdd.2 chat.id
  let result := process_result llm index metadata user_message history
  let sources := process_sources llm index metadata user_message history
  let assistantAdd := add_message userAdd.2 uid2 chat.id "assistant"
    result.response none none
  ({ response := result.response, chat_id := chat.id,
     message_id := assistantAdd.1.id, user_message_id := userAdd.1.id,
     thinking := result.thinking, sources_used := sources,
     is_bookmarked := false }, assistantAdd.2)

/-! ### Claim C10 -/

/-- C10: whatever the generation outcome, the assistant turn is persisted
with only role and content — its `thinking` and `sources` columns are
`none` — while the same request's reply carries the reasoning and the
`sources_used` list; reading the session afterwards (`chat.messages`)
returns that assistant message with no reasoning trace and no citations. -/
theorem C10_assistant_turn_dropped (llm : LLM) (index : Option AnnIndex)
    (metadata : List SourceItem) (db : DB) (chat : ChatRec)
    (user_message uid1 uid2 : String) :
    ∃ m : MessageRec,
      (process_message llm index metadata db chat user_message uid1 uid2).2.messages.getLast?
        = some m ∧
      m.role = "assistant" ∧ m.thinking = none ∧ m.sources = none ∧
      m.content =
        (process_message llm index metadata db chat user_message uid1 uid2).1.response ∧
      (chatMessages (process_message llm index metadata db chat user_message uid1 uid2).2
        chat.id).getLast? = some m ∧
      (process_message llm index metadata db chat user_message uid1 uid2).1.thinking =
        (process_result llm index metadata user_message
          (process_history (add_message db uid1 chat.id "user" user_message none none).2
            chat.id)).thinking ∧
      (process_message llm index metadata db chat user_message uid1 uid2).1.sources_used =
        process_sources llm index metadata user_message
          (process_history (add_message db uid1 chat.id "user" user_message none none).2
            chat.id) := by
  refine ⟨⟨uid2, chat.id, "assistant",
      (process_message llm index metadata db chat user_message uid1 uid2).1.response,
      none, none, false⟩, ?_, rfl, rfl, rfl, rfl, ?_, rfl, rfl⟩
  · show ((add_message db uid1 chat.id "user" user_message none none).2.messages ++ [_]).getLast?
      = _
    rw [List.getLast?_concat]
    rfl
  · show (((add_message db uid1 chat.id "user" user_message none none).2.messages
      ++ [_]).filter fun m : MessageRec => m.chat_id == chat.id).getLast? = _
    rw [List.filter_append]
    have hsingle : ∀ mm : MessageRec, mm.chat_id = chat.id →
        ([mm].filter fun m : MessageRec => m.chat_id == chat.id) = [mm] := by
      intro mm hmm
      simp [List.filter, hmm]
    rw [hsingle _ rfl, List.getLast?_concat]
    rfl
end QuranTalk
